import Mathlib

/-!
Verification development for the metered API gateway in `app.py`.

The SQLite database is embedded as lists of rows (`api_keys`, `request_logs`);
SQL statements become list operations that mirror the queries row-for-row.
Timestamps are seconds since the epoch (`Nat`); a UTC calendar day is 86400
seconds, so `CURRENT_TIMESTAMP` comparisons against "today's midnight" become
arithmetic on `t / 86400`.  SQLite INTEGER columns that can go negative
(`credits`, `daily_limit`) are `Int`; monotone counters are `Nat`.  The
`response_time` FLOAT column is omitted: no property here depends on it.
Downstream HTTP calls are abstracted by a boolean oracle `downstreamOk`
(`True` = the call returned without raising), and `secrets.token_urlsafe`
by an explicitly supplied candidate token.
-/

/-- One row of the `api_keys` table (schema in `init_db`). -/
structure ApiKeyRow where
  key : String
  name : String
  created_at : Nat
  is_active : Bool
  total_requests : Nat
  daily_requests : Nat
  daily_limit : Int
  credits : Int
  last_reset : Nat
  last_used : Option Nat
  expires_at : Option Nat
  deriving DecidableEq, Repr

/-- One row of the `request_logs` table. -/
structure LogRow where
  api_key : String
  endpoint : String
  prompt : Option String
  credits_used : Int
  created_at : Nat
  deriving DecidableEq, Repr

/-- The mutable database state: the two tables the request path touches. -/
structure DB where
  api_keys : List ApiKeyRow
  request_logs : List LogRow
  deriving DecidableEq, Repr

/-- A key row with the schema's column defaults
(`is_active` 1, counters 0, `daily_limit` 30, `credits` 30). -/
def baseKey (k : String) : ApiKeyRow :=
  { key := k, name := "User Key", created_at := 0, is_active := true,
    total_requests := 0, daily_requests := 0, daily_limit := 30, credits := 30,
    last_reset := 0, last_used := none, expires_at := none }

/-- `SELECT * FROM api_keys WHERE key = ?` followed by `fetchone()`. -/
def findKey (db : DB) (k : String) : Option ApiKeyRow :=
  db.api_keys.find? (fun r => r.key == k)

/-- `SELECT * FROM api_keys WHERE key = ? AND is_active = 1`, `fetchone()`. -/
def findActiveKey (db : DB) (k : String) : Option ApiKeyRow :=
  db.api_keys.find? (fun r => r.key == k && r.is_active)

/-- `check_credits(api_key, credits_needed)`: the key exists, is active, and
`credits >= credits_needed`. -/
def check_credits (db : DB) (api_key : String) (credits_needed : Int) : Bool :=
  match findActiveKey db api_key with
  | none => false
  | some r => credits_needed ≤ r.credits

/-- `use_credits(api_key, credits_used)`:
`UPDATE api_keys SET credits = credits - ? WHERE key = ?`. -/
def use_credits (db : DB) (api_key : String) (credits_used : Int) : DB :=
  { db with api_keys := db.api_keys.map (fun r =>
      if r.key == api_key then { r with credits := r.credits - credits_used } else r) }

/-- `update_usage(api_key)`: increments `total_requests` and `daily_requests`
and stamps `last_used`, for the row with the given key. -/
def update_usage (db : DB) (api_key : String) (now : Nat) : DB :=
  { db with api_keys := db.api_keys.map (fun r =>
      if r.key == api_key then
        { r with total_requests := r.total_requests + 1,
                 daily_requests := r.daily_requests + 1,
                 last_used := some now }
      else r) }

/-- `log_request(api_key, endpoint, prompt, ..., credits_used)`: appends one
row to `request_logs` (the FLOAT `response_time` column is omitted). -/
def log_request (db : DB) (api_key endpoint : String) (prompt : Option String)
    (credits_used : Int) (now : Nat) : DB :=
  { db with request_logs := db.request_logs ++
      [{ api_key := api_key, endpoint := endpoint, prompt := prompt,
         credits_used := credits_used, created_at := now }] }

/-- The UTC calendar day of a timestamp. -/
def utcDay (t : Nat) : Nat := t / 86400

/-- `datetime.utcnow().replace(hour=0, minute=0, second=0, microsecond=0)`:
the most recent UTC midnight. -/
def midnight (now : Nat) : Nat := utcDay now * 86400

/-- `SELECT COUNT(*) FROM request_logs WHERE api_key = ? AND created_at >= ?`. -/
def countSince (logs : List LogRow) (k : String) (since : Nat) : Nat :=
  (logs.filter (fun l => l.api_key == k && decide (since ≤ l.created_at))).length

/-- `SELECT SUM(credits_used) FROM request_logs WHERE api_key = ?` (NULL → 0). -/
def sumCost (logs : List LogRow) (k : String) : Int :=
  ((logs.filter (fun l => l.api_key == k)).map (fun l => l.credits_used)).sum

/-- HTTP-level outcome of a request-path endpoint, as a typed decision. -/
inductive ApiResult where
  | ok              -- normal 200 response
  | unauthorized    -- 401 "Invalid API key"
  | paymentRequired -- 402 "Insufficient credits"
  | badRequest      -- 400 (invalid voice)
  | serviceError    -- 500 downstream service failure
  | notFound        -- 404 "API key not found"
  deriving DecidableEq, Repr

/-- `GET /text` (cost 0): validate the key, call the downstream service, then
`update_usage` and `log_request` with 0 credits.  A downstream failure raises
before any accounting happens. -/
def text_generation (db : DB) (prompt api_key : String) (downstreamOk : Bool)
    (now : Nat) : DB × ApiResult :=
  match findActiveKey db api_key with
  | none => (db, .unauthorized)
  | some _ =>
    if downstreamOk then
      (log_request (update_usage db api_key now) api_key "/text" (some prompt) 0 now, .ok)
    else (db, .serviceError)

/-- `GET /image` (cost 0): same shape as `/text`. -/
def image_generation (db : DB) (prompt api_key : String) (downstreamOk : Bool)
    (now : Nat) : DB × ApiResult :=
  match findActiveKey db api_key with
  | none => (db, .unauthorized)
  | some _ =>
    if downstreamOk then
      (log_request (update_usage db api_key now) api_key "/image" (some prompt) 0 now, .ok)
    else (db, .serviceError)

/-- `GET /qr` (cost 0): same shape as `/text`. -/
def qr_generation (db : DB) (text api_key : String) (downstreamOk : Bool)
    (now : Nat) : DB × ApiResult :=
  match findActiveKey db api_key with
  | none => (db, .unauthorized)
  | some _ =>
    if downstreamOk then
      (log_request (update_usage db api_key now) api_key "/qr" (some text) 0 now, .ok)
    else (db, .serviceError)

/-- `GET /num` (cost 5): `check_credits` first; the deduction and accounting
run only after the downstream call returns successfully. -/
def number_service (db : DB) (mobile api_key : String) (downstreamOk : Bool)
    (now : Nat) : DB × ApiResult :=
  if check_credits db api_key 5 then
    if downstreamOk then
      (log_request (update_usage (use_credits db api_key 5) api_key now)
        api_key "/num" (some mobile) 5 now, .ok)
    else (db, .serviceError)
  else (db, .paymentRequired)

/-- `GET /video` (cost 2): same shape as `/num`. -/
def video_generation (db : DB) (prompt api_key : String) (downstreamOk : Bool)
    (now : Nat) : DB × ApiResult :=
  if check_credits db api_key 2 then
    if downstreamOk then
      (log_request (update_usage (use_credits db api_key 2) api_key now)
        api_key "/video" (some prompt) 2 now, .ok)
    else (db, .serviceError)
  else (db, .paymentRequired)

def AVAILABLE_VOICES : List String :=
  ["echo", "fable", "onyx", "shimmer", "alloy", "nova"]

/-- `if not voice: voice = random.choice(AVAILABLE_VOICES)` — Python's falsy
test replaces both an absent and an empty voice parameter by the random
choice (supplied here as the `randomVoice` oracle). -/
def chosenVoice (voice : Option String) (randomVoice : String) : String :=
  match voice with
  | none => randomVoice
  | some s => if s == "" then randomVoice else s

/-- `GET /voice` (cost 1): `check_credits`, then voice validation, then the
downstream call, then the commit. -/
def voice_generation (db : DB) (prompt api_key : String) (voice : Option String)
    (randomVoice : String) (downstreamOk : Bool) (now : Nat) : DB × ApiResult :=
  if check_credits db api_key 1 then
    if AVAILABLE_VOICES.contains (chosenVoice voice randomVoice) then
      if downstreamOk then
        (log_request (update_usage (use_credits db api_key 1) api_key now)
          api_key "/voice" (some prompt) 1 now, .ok)
      else (db, .serviceError)
    else (db, .badRequest)
  else (db, .paymentRequired)

/-- `GET /song` (cost 1): same shape as `/num`. -/
def song_search (db : DB) (songname api_key : String) (downstreamOk : Bool)
    (now : Nat) : DB × ApiResult :=
  if check_credits db api_key 1 then
    if downstreamOk then
      (log_request (update_usage (use_credits db api_key 1) api_key now)
        api_key "/song" (some songname) 1 now, .ok)
    else (db, .serviceError)
  else (db, .paymentRequired)

/-- The JSON body returned by `GET /api_key` (the fields the claims mention). -/
structure UsageInfo where
  name : String
  is_active : Bool
  total_requests : Nat
  daily_used : Nat
  daily_limit : Int
  remaining_today : Int
  credits_available : Int
  total_credits_used : Int
  deriving DecidableEq, Repr

/-- `GET /api_key` (`check_api_usage`): read-only — it runs only SELECTs.
`daily_used` is the count of log rows for the key since today's UTC midnight,
not the stored `daily_requests` column; `remaining_today` is
`max(0, daily_limit - daily_used)`. -/
def check_api_usage (db : DB) (api_key : String) (now : Nat) : Option UsageInfo :=
  match findKey db api_key with
  | none => none
  | some r =>
    let today_requests := countSince db.request_logs api_key (midnight now)
    some { name := r.name, is_active := r.is_active,
           total_requests := r.total_requests,
           daily_used := today_requests,
           daily_limit := r.daily_limit,
           remaining_today := max 0 (r.daily_limit - (today_requests : Int)),
           credits_available := r.credits,
           total_credits_used := sumCost db.request_logs api_key }

/-- Outcome of admin key issuance. -/
inductive GenResult where
  | success (api_key : String)
  | unauthorized
  | generationFailed   -- 400 "Key generation failed" (UNIQUE violation)
  deriving DecidableEq, Repr

/-- The row `admin_generate_key` INSERTs (unlisted columns take their schema
defaults; `expires_at = utcnow() + timedelta(days=365)`). -/
def newApiKeyRow (key key_name : String) (daily_limit initial_credits : Int)
    (now : Nat) : ApiKeyRow :=
  { key := key, name := key_name, created_at := now, is_active := true,
    total_requests := 0, daily_requests := 0, daily_limit := daily_limit,
    credits := initial_credits, last_reset := now, last_used := none,
    expires_at := some (now + 365 * 86400) }

/-- `GET /admin/generateapi`: a single `generate_api_key()` call (the supplied
`newToken` oracle), one INSERT; `sqlite3.IntegrityError` on the UNIQUE key
column becomes an immediate 400 — there is no retry loop. -/
def admin_generate_key (db : DB) (adminOk : Bool) (newToken key_name : String)
    (daily_limit initial_credits : Int) (now : Nat) : DB × GenResult :=
  if adminOk then
    match findKey db newToken with
    | some _ => (db, .generationFailed)
    | none =>
      ({ db with api_keys :=
          db.api_keys ++ [newApiKeyRow newToken key_name daily_limit initial_credits now] },
       .success newToken)
  else (db, .unauthorized)

/-- Modelled from the spec (for refinement comparison only; no source function
corresponds to it): `issue` retries token generation on collision, walking a
bounded list of candidate tokens and failing only when every candidate
collides. -/
def issue_with_retry (db : DB) (candidates : List String) (key_name : String)
    (daily_limit initial_credits : Int) (now : Nat) : DB × GenResult :=
  match candidates with
  | [] => (db, .generationFailed)
  | t :: rest =>
    match findKey db t with
    | some _ => issue_with_retry db rest key_name daily_limit initial_credits now
    | none =>
      ({ db with api_keys :=
          db.api_keys ++ [newApiKeyRow t key_name daily_limit initial_credits now] },
       .success t)

/-- `GET /admin/deleteapi`: deletes the key's log rows, then the key row. -/
def admin_delete_key (db : DB) (adminOk : Bool) (api_key : String) : DB × ApiResult :=
  if adminOk then
    match findKey db api_key with
    | none => (db, .notFound)
    | some _ =>
      ({ api_keys := db.api_keys.filter (fun r => !(r.key == api_key)),
         request_logs := db.request_logs.filter (fun l => !(l.api_key == api_key)) },
       .ok)
  else (db, .unauthorized)

/-!
### Interleaving semantics for concurrent paid requests

`check_credits` and the commit (`use_credits`; `update_usage`; `log_request`)
are separate database round trips in the source, so the scheduler may run
other requests between a request's check and its commit.  A thread is a
`/num`-style paid request on one key; the commit is modelled as a single step
(finer interleavings only add behaviours, they remove none).  The downstream
call between check and commit is taken to succeed. -/

inductive ThreadPhase where
  | start            -- about to run check_credits
  | admittedPending  -- check passed and downstream returned; about to commit
  | denied           -- check failed: 402, no further effect
  | committed        -- commit done: admitted
  deriving DecidableEq, Repr

/-- One scheduling step of a paid request with cost `c` on key `k`. -/
def threadStep (k : String) (c : Int) (now : Nat) (db : DB) :
    ThreadPhase → DB × ThreadPhase
  | .start =>
    if check_credits db k c then (db, .admittedPending) else (db, .denied)
  | .admittedPending =>
    (log_request (update_usage (use_credits db k c) k now) k "/num" none c now,
     .committed)
  | p => (db, p)

/-- Run a schedule: each entry names the thread that takes its next step. -/
def runSchedule (k : String) (c : Int) (now : Nat) :
    List Nat → DB → List ThreadPhase → DB × List ThreadPhase
  | [], db, ps => (db, ps)
  | i :: rest, db, ps =>
    match ps[i]? with
    | none => runSchedule k c now rest db ps
    | some p =>
      let s := threadStep k c now db p
      runSchedule k c now rest s.1 (ps.set i s.2)

/-!
### Sequences of non-admin request-path operations -/

/-- One sequential (non-admin) request-path call, with its oracles. -/
inductive Op where
  | text (prompt api_key : String) (downstreamOk : Bool) (now : Nat)
  | image (prompt api_key : String) (downstreamOk : Bool) (now : Nat)
  | qr (txt api_key : String) (downstreamOk : Bool) (now : Nat)
  | num (mobile api_key : String) (downstreamOk : Bool) (now : Nat)
  | video (prompt api_key : String) (downstreamOk : Bool) (now : Nat)
  | voice (prompt api_key : String) (voiceChoice : Option String)
      (randomVoice : String) (downstreamOk : Bool) (now : Nat)
  | song (songname api_key : String) (downstreamOk : Bool) (now : Nat)
  | usage (api_key : String) (now : Nat)
  deriving DecidableEq, Repr

/-- The state transformation of one sequential call (`/api_key` is read-only). -/
def applyOp (db : DB) : Op → DB
  | .text p k ok now => (text_generation db p k ok now).1
  | .image p k ok now => (image_generation db p k ok now).1
  | .qr t k ok now => (qr_generation db t k ok now).1
  | .num m k ok now => (number_service db m k ok now).1
  | .video p k ok now => (video_generation db p k ok now).1
  | .voice p k v rv ok now => (voice_generation db p k v rv ok now).1
  | .song s k ok now => (song_search db s k ok now).1
  | .usage _ _ => db

/-- Fold a sequence of sequential calls over the database. -/
def runOps (ops : List Op) (db : DB) : DB := ops.foldl applyOp db

/-- The UNIQUE constraint on `api_keys.key`: no two rows share a key. -/
def KeysUnique (db : DB) : Prop := (db.api_keys.map (fun r => r.key)).Nodup

/-- Every key's credit balance is non-negative. -/
def goodDB (db : DB) : Prop := ∀ r ∈ db.api_keys, 0 ≤ r.credits

/-!
### Infrastructure lemmas -/

theorem find?_key_map (l : List ApiKeyRow) (f : ApiKeyRow → ApiKeyRow)
    (hf : ∀ r, (f r).key = r.key) (k : String) :
    (l.map f).find? (fun r => r.key == k) = (l.find? (fun r => r.key == k)).map f := by
  induction l with
  | nil => rfl
  | cons a l ih =>
    simp only [List.map_cons, List.find?]
    rw [hf a]
    cases h : (a.key == k) with
    | true => rfl
    | false => simpa using ih

theorem use_credits_key (r : ApiKeyRow) (k : String) (c : Int) :
    (if r.key == k then { r with credits := r.credits - c } else r).key = r.key := by
  split <;> rfl

theorem update_usage_key (r : ApiKeyRow) (k : String) (now : Nat) :
    (if r.key == k then
      { r with total_requests := r.total_requests + 1,
               daily_requests := r.daily_requests + 1,
               last_used := some now }
    else r).key = r.key := by
  split <;> rfl

theorem findKey_use_credits (db : DB) (k : String) (c : Int) (k2 : String) :
    findKey (use_credits db k c) k2 = (findKey db k2).map
      (fun r => if r.key == k then { r with credits := r.credits - c } else r) :=
  find?_key_map db.api_keys _ (fun r => use_credits_key r k c) k2

theorem findKey_update_usage (db : DB) (k : String) (now : Nat) (k2 : String) :
    findKey (update_usage db k now) k2 = (findKey db k2).map
      (fun r => if r.key == k then
        { r with total_requests := r.total_requests + 1,
                 daily_requests := r.daily_requests + 1,
                 last_used := some now }
      else r) :=
  find?_key_map db.api_keys _ (fun r => update_usage_key r k now) k2

theorem findKey_log_request (db : DB) (k e : String) (p : Option String)
    (c : Int) (now : Nat) (k2 : String) :
    findKey (log_request db k e p c now) k2 = findKey db k2 := rfl

theorem row_eq_of_key_eq {db : DB} (hn : KeysUnique db) {r s : ApiKeyRow}
    (hr : r ∈ db.api_keys) (hs : s ∈ db.api_keys) (hk : r.key = s.key) : r = s :=
  List.inj_on_of_nodup_map hn hr hs hk

theorem findActiveKey_mem {db : DB} {k : String} {r : ApiKeyRow}
    (h : findActiveKey db k = some r) :
    r ∈ db.api_keys ∧ r.key = k ∧ r.is_active = true := by
  have hp := List.find?_some h
  simp only [Bool.and_eq_true, beq_iff_eq] at hp
  exact ⟨List.mem_of_find?_eq_some h, hp.1, hp.2⟩

theorem findKey_mem {db : DB} {k : String} {r : ApiKeyRow}
    (h : findKey db k = some r) : r ∈ db.api_keys ∧ r.key = k :=
  ⟨List.mem_of_find?_eq_some h, by simpa using List.find?_some h⟩

/-- Under the UNIQUE constraint, the row found with the `is_active` filter is
the row found without it. -/
theorem findKey_of_findActiveKey {db : DB} {k : String} {r : ApiKeyRow}
    (hn : KeysUnique db) (h : findActiveKey db k = some r) :
    findKey db k = some r := by
  obtain ⟨hmem, hk, _⟩ := findActiveKey_mem h
  have hsome : (findKey db k).isSome :=
    List.find?_isSome.mpr ⟨r, hmem, by simp [hk]⟩
  obtain ⟨t, ht⟩ := Option.isSome_iff_exists.mp hsome
  obtain ⟨htmem, htk⟩ := findKey_mem ht
  rw [ht, row_eq_of_key_eq hn htmem hmem (htk.trans hk.symm)]

theorem KeysUnique_map (db : DB) (f : ApiKeyRow → ApiKeyRow)
    (hf : ∀ r, (f r).key = r.key) (hn : KeysUnique db) :
    KeysUnique { db with api_keys := db.api_keys.map f } := by
  unfold KeysUnique
  rw [List.map_map]
  have heq : db.api_keys.map ((fun r => r.key) ∘ f) = db.api_keys.map (fun r => r.key) :=
    List.map_congr_left (fun a _ => hf a)
  rw [heq]
  exact hn

theorem KeysUnique_use_credits (db : DB) (k : String) (c : Int)
    (hn : KeysUnique db) : KeysUnique (use_credits db k c) :=
  KeysUnique_map db _ (fun r => use_credits_key r k c) hn

theorem KeysUnique_update_usage (db : DB) (k : String) (now : Nat)
    (hn : KeysUnique db) : KeysUnique (update_usage db k now) :=
  KeysUnique_map db _ (fun r => update_usage_key r k now) hn

theorem KeysUnique_log_request (db : DB) (k e : String) (p : Option String)
    (c : Int) (now : Nat) (hn : KeysUnique db) :
    KeysUnique (log_request db k e p c now) := hn

theorem goodDB_update_usage (db : DB) (k : String) (now : Nat)
    (hg : goodDB db) : goodDB (update_usage db k now) := by
  intro r hr
  simp only [update_usage, List.mem_map] at hr
  obtain ⟨s, hs, rfl⟩ := hr
  have h0 := hg s hs
  split <;> simpa using h0

theorem goodDB_log_request (db : DB) (k e : String) (p : Option String)
    (c : Int) (now : Nat) (hg : goodDB db) :
    goodDB (log_request db k e p c now) := hg

/-- The heart of the credit invariant: a deduction guarded by a passing
`check_credits` cannot drive the (unique) row's balance negative. -/
theorem goodDB_use_credits {db : DB} {k : String} {c : Int}
    (hn : KeysUnique db) (hg : goodDB db) (hc : check_credits db k c = true) :
    goodDB (use_credits db k c) := by
  intro r hr
  simp only [use_credits, List.mem_map] at hr
  obtain ⟨s, hs, rfl⟩ := hr
  by_cases hk : s.key = k
  · unfold check_credits at hc
    cases hfa : findActiveKey db k with
    | none => rw [hfa] at hc; exact absurd hc (by simp)
    | some t =>
      rw [hfa] at hc
      have hct : c ≤ t.credits := by simpa using hc
      obtain ⟨htmem, htk, _⟩ := findActiveKey_mem hfa
      have hst : s = t := row_eq_of_key_eq hn hs htmem (hk.trans htk.symm)
      simp only [hk, beq_self_eq_true, if_true]
      rw [hst]
      omega
  · have h0 := hg s hs
    simp only [beq_iff_eq, hk, if_false]
    exact h0

theorem paid_commit_goodDB {db : DB} {k : String} {c : Int} (e : String)
    (p : Option String) (now : Nat)
    (hn : KeysUnique db) (hg : goodDB db) (hc : check_credits db k c = true) :
    goodDB (log_request (update_usage (use_credits db k c) k now) k e p c now) :=
  goodDB_log_request _ _ _ _ _ _
    (goodDB_update_usage _ _ _ (goodDB_use_credits hn hg hc))

theorem paid_commit_KeysUnique {db : DB} {k : String} {c : Int} (e : String)
    (p : Option String) (now : Nat) (hn : KeysUnique db) :
    KeysUnique (log_request (update_usage (use_credits db k c) k now) k e p c now) :=
  KeysUnique_log_request _ _ _ _ _ _
    (KeysUnique_update_usage _ _ _ (KeysUnique_use_credits _ _ _ hn))

theorem free_commit_goodDB {db : DB} {k : String} (e : String)
    (p : Option String) (now : Nat) (hg : goodDB db) :
    goodDB (log_request (update_usage db k now) k e p 0 now) :=
  goodDB_log_request _ _ _ _ _ _ (goodDB_update_usage _ _ _ hg)

theorem free_commit_KeysUnique {db : DB} {k : String} (e : String)
    (p : Option String) (now : Nat) (hn : KeysUnique db) :
    KeysUnique (log_request (update_usage db k now) k e p 0 now) :=
  KeysUnique_log_request _ _ _ _ _ _ (KeysUnique_update_usage _ _ _ hn)

theorem text_generation_preserves (db : DB) (p k : String) (ok : Bool) (now : Nat)
    (hn : KeysUnique db) (hg : goodDB db) :
    goodDB (text_generation db p k ok now).1 ∧
      KeysUnique (text_generation db p k ok now).1 := by
  unfold text_generation
  cases hfa : findActiveKey db k with
  | none => exact ⟨hg, hn⟩
  | some r =>
    cases ok with
    | false => exact ⟨hg, hn⟩
    | true => exact ⟨free_commit_goodDB _ _ _ hg, free_commit_KeysUnique _ _ _ hn⟩

theorem image_generation_preserves (db : DB) (p k : String) (ok : Bool) (now : Nat)
    (hn : KeysUnique db) (hg : goodDB db) :
    goodDB (image_generation db p k ok now).1 ∧
      KeysUnique (image_generation db p k ok now).1 := by
  unfold image_generation
  cases hfa : findActiveKey db k with
  | none => exact ⟨hg, hn⟩
  | some r =>
    cases ok with
    | false => exact ⟨hg, hn⟩
    | true => exact ⟨free_commit_goodDB _ _ _ hg, free_commit_KeysUnique _ _ _ hn⟩

theorem qr_generation_preserves (db : DB) (t k : String) (ok : Bool) (now : Nat)
    (hn : KeysUnique db) (hg : goodDB db) :
    goodDB (qr_generation db t k ok now).1 ∧
      KeysUnique (qr_generation db t k ok now).1 := by
  unfold qr_generation
  cases hfa : findActiveKey db k with
  | none => exact ⟨hg, hn⟩
  | some r =>
    cases ok with
    | false => exact ⟨hg, hn⟩
    | true => exact ⟨free_commit_goodDB _ _ _ hg, free_commit_KeysUnique _ _ _ hn⟩

theorem number_service_preserves (db : DB) (m k : String) (ok : Bool) (now : Nat)
    (hn : KeysUnique db) (hg : goodDB db) :
    goodDB (number_service db m k ok now).1 ∧
      KeysUnique (number_service db m k ok now).1 := by
  unfold number_service
  by_cases hc : check_credits db k 5 = true
  · rw [if_pos hc]
    cases ok with
    | false => exact ⟨hg, hn⟩
    | true => exact ⟨paid_commit_goodDB _ _ _ hn hg hc, paid_commit_KeysUnique _ _ _ hn⟩
  · rw [if_neg hc]
    exact ⟨hg, hn⟩

theorem video_generation_preserves (db : DB) (p k : String) (ok : Bool) (now : Nat)
    (hn : KeysUnique db) (hg : goodDB db) :
    goodDB (video_generation db p k ok now).1 ∧
      KeysUnique (video_generation db p k ok now).1 := by
  unfold video_generation
  by_cases hc : check_credits db k 2 = true
  · rw [if_pos hc]
    cases ok with
    | false => exact ⟨hg, hn⟩
    | true => exact ⟨paid_commit_goodDB _ _ _ hn hg hc, paid_commit_KeysUnique _ _ _ hn⟩
  · rw [if_neg hc]
    exact ⟨hg, hn⟩

theorem voice_generation_preserves (db : DB) (p k : String) (v : Option String)
    (rv : String) (ok : Bool) (now : Nat)
    (hn : KeysUnique db) (hg : goodDB db) :
    goodDB (voice_generation db p k v rv ok now).1 ∧
      KeysUnique (voice_generation db p k v rv ok now).1 := by
  unfold voice_generation
  by_cases hc : check_credits db k 1 = true
  · rw [if_pos hc]
    by_cases hv : AVAILABLE_VOICES.contains (chosenVoice v rv) = true
    · rw [if_pos hv]
      cases ok with
      | false => exact ⟨hg, hn⟩
      | true => exact ⟨paid_commit_goodDB _ _ _ hn hg hc, paid_commit_KeysUnique _ _ _ hn⟩
    · rw [if_neg hv]
      exact ⟨hg, hn⟩
  · rw [if_neg hc]
    exact ⟨hg, hn⟩

theorem song_search_preserves (db : DB) (s k : String) (ok : Bool) (now : Nat)
    (hn : KeysUnique db) (hg : goodDB db) :
    goodDB (song_search db s k ok now).1 ∧
      KeysUnique (song_search db s k ok now).1 := by
  unfold song_search
  by_cases hc : check_credits db k 1 = true
  · rw [if_pos hc]
    cases ok with
    | false => exact ⟨hg, hn⟩
    | true => exact ⟨paid_commit_goodDB _ _ _ hn hg hc, paid_commit_KeysUnique _ _ _ hn⟩
  · rw [if_neg hc]
    exact ⟨hg, hn⟩

/-- Each sequential request-path call preserves key uniqueness and
non-negative balances. -/
theorem applyOp_preserves {db : DB} (op : Op)
    (hn : KeysUnique db) (hg : goodDB db) :
    goodDB (applyOp db op) ∧ KeysUnique (applyOp db op) := by
  cases op with
  | text p k ok now => exact text_generation_preserves db p k ok now hn hg
  | image p k ok now => exact image_generation_preserves db p k ok now hn hg
  | qr t k ok now => exact qr_generation_preserves db t k ok now hn hg
  | num m k ok now => exact number_service_preserves db m k ok now hn hg
  | video p k ok now => exact video_generation_preserves db p k ok now hn hg
  | voice p k v rv ok now => exact voice_generation_preserves db p k v rv ok now hn hg
  | song s k ok now => exact song_search_preserves db s k ok now hn hg
  | usage k now => exact ⟨hg, hn⟩

theorem runOps_preserves (ops : List Op) (db : DB)
    (hn : KeysUnique db) (hg : goodDB db) :
    goodDB (runOps ops db) ∧ KeysUnique (runOps ops db) := by
  induction ops generalizing db with
  | nil => exact ⟨hg, hn⟩
  | cons op ops ih =>
    have h := applyOp_preserves op hn hg
    exact ih (applyOp db op) h.2 h.1

instance (db : DB) : Decidable (goodDB db) := by
  unfold goodDB; infer_instance

instance (db : DB) : Decidable (KeysUnique db) := by
  unfold KeysUnique; infer_instance

/-- A database holding the single key `"k"` with the schema defaults. -/
def dbOneKey : DB := { api_keys := [baseKey "k"], request_logs := [] }

/-!
### The claims -/

/-- C1: FAILS ON THE CODE — no quota check exists anywhere in the request
path.  A key already at its daily limit (`daily_used = daily_limit = 30`) is
admitted by `GET /text` and its counter is pushed to 31, violating
`daily_used ≤ daily_limit`; the claimed `DeniedQuotaExceeded` outcome never
occurs. -/
theorem C1_no_quota_check :
    let row : ApiKeyRow := { baseKey "k" with daily_requests := 30, daily_limit := 30 }
    let db : DB := { api_keys := [row], request_logs := [] }
    (text_generation db "p" "k" true 50).2 = ApiResult.ok ∧
    (findKey (text_generation db "p" "k" true 50).1 "k").map
      (fun r => r.daily_requests) = some 31 := by decide

/-- C2: for every key, `credit_balance ≥ 0` is preserved by any sequence of
non-admin request-path operations, and a metered call whose cost exceeds the
key's balance is denied with 402 Insufficient Credits and changes nothing
(shown for the cost-5 `/num` and cost-2 `/video` operations). -/
theorem C2_credit_balance_nonneg :
    (∀ (ops : List Op) (db : DB), KeysUnique db → goodDB db →
      goodDB (runOps ops db)) ∧
    (∀ (db : DB) (m k : String) (ok : Bool) (now : Nat) (r : ApiKeyRow),
      findActiveKey db k = some r → r.credits < 5 →
      number_service db m k ok now = (db, ApiResult.paymentRequired)) ∧
    (∀ (db : DB) (p k : String) (ok : Bool) (now : Nat) (r : ApiKeyRow),
      findActiveKey db k = some r → r.credits < 2 →
      video_generation db p k ok now = (db, ApiResult.paymentRequired)) := by
  refine ⟨fun ops db hn hg => (runOps_preserves ops db hn hg).1, ?_, ?_⟩
  · intro db m k ok now r hr hlt
    have hc : check_credits db k 5 = false := by
      simp only [check_credits, hr, decide_eq_false_iff_not]
      omega
    simp [number_service, hc]
  · intro db p k ok now r hr hlt
    have hc : check_credits db k 2 = false := by
      simp only [check_credits, hr, decide_eq_false_iff_not]
      omega
    simp [video_generation, hc]

/-- Witness for C2 at concrete inputs: three metered calls on a key with the
default 30 credits keep the balance non-negative, and a cost-5 call on a key
with 3 credits is denied unchanged. -/
theorem C2_credit_balance_nonneg_witness :
    goodDB (runOps [Op.num "m" "k" true 0, Op.video "p" "k" true 1,
                    Op.num "m" "k" true 2] dbOneKey) ∧
    number_service { api_keys := [{ baseKey "k" with credits := 3 }],
                     request_logs := [] } "m" "k" true 0 =
      ({ api_keys := [{ baseKey "k" with credits := 3 }], request_logs := [] },
       ApiResult.paymentRequired) :=
  ⟨C2_credit_balance_nonneg.1 _ dbOneKey (by decide) (by decide),
   C2_credit_balance_nonneg.2.1 _ "m" "k" true 0
     { baseKey "k" with credits := 3 } (by decide) (by decide)⟩

/-- C3: FAILS ON THE CODE — the request path contains no day-rollover logic.
With `last_reset` yesterday and `daily_used = daily_limit = 30`, the next
admitted cost-0 request leaves `last_reset` untouched and sets
`daily_used = 31`, not the claimed reset to 0 followed by 1. -/
theorem C3_no_daily_reset :
    let row : ApiKeyRow := { baseKey "k" with daily_requests := 30, daily_limit := 30, last_reset := 0 }
    let db : DB := { api_keys := [row], request_logs := [] }
    utcDay 0 < utcDay 86410 ∧
    (text_generation db "p" "k" true 86410).2 = ApiResult.ok ∧
    (findKey (text_generation db "p" "k" true 86410).1 "k").map
      (fun r => (r.daily_requests, r.last_reset)) = some (31, 0) := by decide

/-- C4: FAILS ON THE CODE — `check_credits` and the commit are separate
database round trips, so the check-then-commit is not indivisible.  Under the
schedule in which six concurrent cost-1 requests on a key with 5 credits all
run their checks before any commits, all six are admitted and the balance
ends at −1; the claim requires exactly 5 admissions and a balance never below
zero. -/
theorem C4_double_spend_interleaving :
    let db : DB := { api_keys := [{ baseKey "k" with credits := 5 }],
                     request_logs := [] }
    let run := runSchedule "k" 1 7 [0, 1, 2, 3, 4, 5, 0, 1, 2, 3, 4, 5] db
      (List.replicate 6 ThreadPhase.start)
    run.2 = List.replicate 6 ThreadPhase.committed ∧
    (findKey run.1 "k").map (fun r => r.credits) = some (-1) := by decide

/-- C6: FAILS ON THE CODE — `expires_at` is never consulted on admission.  An
active key whose `expires_at` (100) is before `now` (1000) is admitted with
its state mutated, instead of the claimed `DeniedExpired` with no state
change; no expired-distinct-from-inactive outcome exists in the code. -/
theorem C6_expiry_not_enforced :
    let db : DB := { api_keys := [{ baseKey "k" with expires_at := some 100 }],
                     request_logs := [] }
    (100 : Nat) < 1000 ∧
    (text_generation db "p" "k" true 1000).2 = ApiResult.ok ∧
    (text_generation db "p" "k" true 1000).1 ≠ db := by decide

/-- C5 fails as stated: on this input the admission check passes (10 ≥ 2) but
the downstream call fails, and no credits are deducted and nothing is logged —
so the deduction is not committed at the admission decision independently of
the downstream outcome. -/
theorem C5_counterexample :
    let db : DB := { api_keys := [{ baseKey "k" with credits := 10 }],
                     request_logs := [] }
    check_credits db "k" 2 = true ∧
    video_generation db "p" "k" false 0 = (db, ApiResult.serviceError) ∧
    (findKey (video_generation db "p" "k" false 0).1 "k").map
      (fun r => r.credits) = some 10 := by decide

/-- C5 (amended): the credit check precedes the downstream call, but the
deduction and the ledger append are committed only after the downstream call
succeeds; on downstream failure nothing is deducted or accounted, so there is
never an accounted cost to reverse. -/
theorem C5_deduct_after_downstream (db : DB) (p k : String) (now : Nat)
    (hn : KeysUnique db) (r : ApiKeyRow) (hr : findActiveKey db k = some r)
    (hc : 2 ≤ r.credits) :
    video_generation db p k false now = (db, ApiResult.serviceError) ∧
    (video_generation db p k true now).2 = ApiResult.ok ∧
    (findKey (video_generation db p k true now).1 k).map (fun s => s.credits) =
      some (r.credits - 2) ∧
    (video_generation db p k true now).1.request_logs =
      db.request_logs ++ [{ api_key := k, endpoint := "/video", prompt := some p,
                            credits_used := 2, created_at := now }] := by
  have hk : r.key = k := (findActiveKey_mem hr).2.1
  have hcc : check_credits db k 2 = true := by
    simp only [check_credits, hr, decide_eq_true_eq]
    exact hc
  have hfail : video_generation db p k false now = (db, ApiResult.serviceError) := by
    simp [video_generation, hcc]
  have h1 : (video_generation db p k true now).1 =
      log_request (update_usage (use_credits db k 2) k now) k "/video"
        (some p) 2 now := by
    simp [video_generation, hcc]
  have h2 : (video_generation db p k true now).2 = ApiResult.ok := by
    simp [video_generation, hcc]
  refine ⟨hfail, h2, ?_, ?_⟩
  · rw [h1, findKey_log_request, findKey_update_usage, findKey_use_credits,
      findKey_of_findActiveKey hn hr]
    simp [hk]
  · rw [h1]
    rfl

/-- Witness for C5 (amended) at a concrete input. -/
theorem C5_deduct_after_downstream_witness :
    findActiveKey dbOneKey "k" = some (baseKey "k") ∧
    video_generation dbOneKey "p" "k" false 3 = (dbOneKey, ApiResult.serviceError) :=
  ⟨by decide,
   (C5_deduct_after_downstream dbOneKey "p" "k" 3 (by decide) (baseKey "k")
     (by decide) (by decide)).1⟩

/-- C7: an admitted cost-0 operation increments `daily_requests` and
`total_requests` by exactly one, stamps `last_used`, appends a ledger record
with cost 0, and leaves every key's credit balance unchanged. -/
theorem C7_free_op_effects (db : DB) (p k : String) (now : Nat)
    (hn : KeysUnique db) (r : ApiKeyRow) (hr : findActiveKey db k = some r) :
    (text_generation db p k true now).2 = ApiResult.ok ∧
    findKey (text_generation db p k true now).1 k =
      some { r with total_requests := r.total_requests + 1,
                    daily_requests := r.daily_requests + 1,
                    last_used := some now } ∧
    (text_generation db p k true now).1.request_logs =
      db.request_logs ++ [{ api_key := k, endpoint := "/text", prompt := some p,
                            credits_used := 0, created_at := now }] ∧
    (text_generation db p k true now).1.api_keys.map (fun s => s.credits) =
      db.api_keys.map (fun s => s.credits) := by
  have hk : r.key = k := (findActiveKey_mem hr).2.1
  have hred : text_generation db p k true now =
      (log_request (update_usage db k now) k "/text" (some p) 0 now,
       ApiResult.ok) := by
    simp [text_generation, hr]
  rw [hred]
  refine ⟨rfl, ?_, rfl, ?_⟩
  · rw [findKey_log_request, findKey_update_usage, findKey_of_findActiveKey hn hr]
    simp [hk]
  · show ((update_usage db k now).api_keys).map _ = _
    unfold update_usage
    rw [List.map_map]
    refine List.map_congr_left fun a _ => ?_
    by_cases h : a.key = k <;> simp [h]

/-- Witness for C7 at a concrete input. -/
theorem C7_free_op_effects_witness :
    findActiveKey dbOneKey "k" = some (baseKey "k") ∧
    (text_generation dbOneKey "p" "k" true 5).2 = ApiResult.ok :=
  ⟨by decide,
   (C7_free_op_effects dbOneKey "p" "k" 5 (by decide) (baseKey "k") (by decide)).1⟩

/-- C8: after admin revocation of an existing key, the usage read returns
NotFound for its token and no ledger row for that token remains queryable. -/
theorem C8_revoke_cascade (db : DB) (k : String) (now : Nat) (r : ApiKeyRow)
    (hr : findKey db k = some r) :
    (admin_delete_key db true k).2 = ApiResult.ok ∧
    check_api_usage (admin_delete_key db true k).1 k now = none ∧
    (admin_delete_key db true k).1.request_logs.filter
      (fun l => l.api_key == k) = [] := by
  have h1 : (admin_delete_key db true k).1 =
      { api_keys := db.api_keys.filter (fun s => !(s.key == k)),
        request_logs := db.request_logs.filter (fun l => !(l.api_key == k)) } := by
    simp [admin_delete_key, hr]
  have h2 : (admin_delete_key db true k).2 = ApiResult.ok := by
    simp [admin_delete_key, hr]
  refine ⟨h2, ?_, ?_⟩
  · have hnone : findKey
        { api_keys := db.api_keys.filter (fun s => !(s.key == k)),
          request_logs := db.request_logs.filter (fun l => !(l.api_key == k)) }
        k = none := by
      unfold findKey
      rw [List.find?_eq_none]
      intro x hx
      have hx2 := (List.mem_filter.mp hx).2
      simp at hx2 ⊢
      exact hx2
    rw [h1]
    unfold check_api_usage
    rw [hnone]
  · rw [h1]
    rw [List.filter_eq_nil_iff]
    intro a ha
    have ha2 := (List.mem_filter.mp ha).2
    simp at ha2 ⊢
    exact ha2

/-- One key plus one ledger row for it (concrete revocation input). -/
def dbWithLog : DB :=
  { api_keys := [baseKey "k"],
    request_logs := [{ api_key := "k", endpoint := "/text", prompt := none,
                       credits_used := 0, created_at := 0 }] }

/-- Witness for C8 at a concrete input: one key, one ledger row. -/
theorem C8_revoke_cascade_witness :
    findKey dbWithLog "k" = some (baseKey "k") ∧
    check_api_usage (admin_delete_key dbWithLog true "k").1 "k" 9 = none :=
  ⟨by decide,
   (C8_revoke_cascade dbWithLog "k" 9 (baseKey "k") (by decide)).2.1⟩

/-- C9 fails as stated: with the key `"a"` already issued and candidate tokens
`["a", "b"]`, an issuer that retries on collision (the spec's behaviour,
`issue_with_retry`) succeeds with `"b"`, but `admin_generate_key` makes a
single attempt and fails immediately on the collision even though not every
candidate within a retry bound collides. -/
theorem C9_counterexample :
    let db : DB := { api_keys := [baseKey "a"], request_logs := [] }
    (admin_generate_key db true "a" "User Key" 30 30 0).2 =
      GenResult.generationFailed ∧
    (issue_with_retry db ["a", "b"] "User Key" 30 30 0).2 =
      GenResult.success "b" := by decide

theorem find?_append_of_none {α : Type} {l1 l2 : List α} {p : α → Bool}
    (h : l1.find? p = none) : (l1 ++ l2).find? p = l2.find? p := by
  rw [List.find?_append, h]
  rfl

/-- C9 (amended): key issuance makes exactly one token-generation attempt — a
collision fails immediately with a generic generation-failed error, leaving
the store unchanged — and on success the new key is persisted with the
supplied name, daily limit and initial credits. -/
theorem C9_single_attempt (db : DB) (t nm : String) (dl ic : Int) (now : Nat) :
    (∀ r, findKey db t = some r →
      admin_generate_key db true t nm dl ic now = (db, GenResult.generationFailed)) ∧
    (findKey db t = none →
      (admin_generate_key db true t nm dl ic now).2 = GenResult.success t ∧
      findKey (admin_generate_key db true t nm dl ic now).1 t =
        some (newApiKeyRow t nm dl ic now)) := by
  constructor
  · intro r hr
    simp [admin_generate_key, hr]
  · intro hmiss
    have hred : admin_generate_key db true t nm dl ic now =
        ({ db with api_keys := db.api_keys ++ [newApiKeyRow t nm dl ic now] },
         GenResult.success t) := by
      simp [admin_generate_key, hmiss]
    rw [hred]
    refine ⟨rfl, ?_⟩
    show (db.api_keys ++ [newApiKeyRow t nm dl ic now]).find? _ = _
    rw [find?_append_of_none hmiss]
    simp [newApiKeyRow]

/-- Witness for C9 (amended) at a concrete input. -/
theorem C9_single_attempt_witness :
    findKey dbOneKey "t2" = none ∧
    (admin_generate_key dbOneKey true "t2" "User Key" 30 30 0).2 =
      GenResult.success "t2" :=
  ⟨by decide,
   ((C9_single_attempt dbOneKey "t2" "User Key" 30 30 0).2 (by decide)).1⟩

/-- Overwrite every row's stored `daily_requests` counter (used to state that
the usage read never consults it). -/
def setDailyCounter (db : DB) (n : Nat) : DB :=
  { db with api_keys := db.api_keys.map (fun r => { r with daily_requests := n }) }

/-- C10: the usage read is pure (its embedding takes the state and returns
only a report); its `daily_used` is the ledger count of the token's rows
since UTC midnight — unchanged under arbitrary rewrites of the stored
`daily_requests` counter — and `remaining_today = max 0 (daily_limit −
daily_used)`; being a function of the state alone, two reads with no
intervening accounted request agree. -/
theorem C10_usage_read (db : DB) (k : String) (now : Nat) (n : Nat)
    (r : ApiKeyRow) (hr : findKey db k = some r) :
    check_api_usage db k now = some
      { name := r.name, is_active := r.is_active,
        total_requests := r.total_requests,
        daily_used := (db.request_logs.filter
          (fun l => l.api_key == k && decide (midnight now ≤ l.created_at))).length,
        daily_limit := r.daily_limit,
        remaining_today := max 0 (r.daily_limit - ((db.request_logs.filter
          (fun l => l.api_key == k && decide (midnight now ≤ l.created_at))).length : Int)),
        credits_available := r.credits,
        total_credits_used := sumCost db.request_logs k } ∧
    check_api_usage (setDailyCounter db n) k now = check_api_usage db k now := by
  constructor
  · simp [check_api_usage, hr, countSince]
  · have hfk : findKey (setDailyCounter db n) k =
        (findKey db k).map (fun s => { s with daily_requests := n }) :=
      find?_key_map db.api_keys (fun s => { s with daily_requests := n })
        (fun _ => rfl) k
    have hlogs : (setDailyCounter db n).request_logs = db.request_logs := rfl
    simp [check_api_usage, hfk, hr, hlogs]

/-- A key whose stored counter (99) disagrees with its ledger (one row today,
at timestamp 86405, i.e. shortly after the first UTC midnight). -/
def rowStale : ApiKeyRow := { baseKey "k" with daily_requests := 99 }

def dbStale : DB :=
  { api_keys := [rowStale],
    request_logs := [{ api_key := "k", endpoint := "/text", prompt := none,
                       credits_used := 0, created_at := 86405 }] }

/-- Witness for C10: the read reports the ledger count (1), not the stored 99,
and rewriting the stored counter does not change the report. -/
theorem C10_usage_read_witness :
    findKey dbStale "k" = some rowStale ∧
    check_api_usage (setDailyCounter dbStale 0) "k" 86410 =
      check_api_usage dbStale "k" 86410 ∧
    (check_api_usage dbStale "k" 86410).map (fun u => u.daily_used) = some 1 := by
  refine ⟨by decide, ?_, by decide⟩
  exact (C10_usage_read dbStale "k" 86410 0 rowStale (by decide)).2
